import Mathlib

/-!
Verification of the semicircle-constraint analysis scripts.

The repository's numeric core is a handful of closed-form computations shared
by `tests/Simulations/test_semicircle_constraint.py`,
`tests/Simulations/test_optimal_operating_point.py`,
`tests/Simulations/test_barren_plateau_geometry.py`,
`generate_figures.py` and `tests/Real IonQ/azure_quantum_tests.py`:

* the reference curve `C_qc(q) = sqrt(q * (1 - q))`;
* the circle-constraint residual `(q - 0.5)^2 + C_qc^2 - 0.25`;
* the analytic sensitivity `dC_qc/dq = (1 - 2 q) / (2 C_qc)` with the
  singular points clamped to `0`;
* aggregate statistics (mean, RMS, max) over residual lists; NumPy's
  `mean` of an empty array is the non-value `NaN`, modelled here by
  `Option.none`, and `np.log` of a non-positive float is likewise modelled
  by `Option.none`;
* an ordinary least-squares slope of `log(variance)` against circuit depth.

Machine floating point is modelled by exact real arithmetic, keeping the
branch structure of the scripts (guards, clips, clamps) intact.
-/

namespace QC

/-- NumPy `np.clip(x, lo, hi)`: `x` forced into the interval `[lo, hi]`,
as in `np.clip(q_meas, 0.001, 0.999)` of `test_semicircle_constraint.py`. -/
def npClip (x lo hi : ℝ) : ℝ := min (max x lo) hi

/-- The reference curve `c_qc = np.sqrt(q * (1 - q))`, appearing verbatim in
all five scripts (e.g. `azure_quantum_tests.py`, line computing `c_qc`). -/
noncomputable def c_qc (q : ℝ) : ℝ := Real.sqrt (q * (1 - q))

/-- Phases 1–2 of `test_semicircle_constraint.py` compute
`c_qc = np.sqrt(max(0, q_meas * (1 - q_meas)))`. -/
noncomputable def c_qc_clamped (q : ℝ) : ℝ := Real.sqrt (max 0 (q * (1 - q)))

/-- `residual = (q_meas - 0.5)**2 + c_qc**2 - 0.25` from
`test_semicircle_constraint.py`. -/
noncomputable def circleResidual (q : ℝ) : ℝ := (q - 0.5) ^ 2 + c_qc q ^ 2 - 0.25

/-- The pass verdict of `run_test26_semicircle_constraint`
(`test_semicircle_constraint.py`, the `passed = ...` expression):
`passed = (rms_uniform < 0.001 and rms_random < 0.001 and
max_random < 0.01 and abs(mean_radius - 0.5) < 0.001)`.
The aggregates are taken as already-computed rational inputs. -/
def passed26 (rms_uniform rms_random max_random mean_radius : ℚ) : Bool :=
  decide (rms_uniform < 1/1000) && decide (rms_random < 1/1000) &&
    decide (max_random < 1/100) && decide (|mean_radius - 1/2| < 1/1000)

/-- The pass verdict of `run_qsharp_test` (`azure_quantum_tests.py`):
`passed = correlation > 0.9`. -/
def qsharpPassed (correlation : ℚ) : Bool := decide (correlation > 9/10)

/-- The sensitivity branch of `run_test27_optimal_operating_point`
(`test_optimal_operating_point.py`, phase 4):
`if c_qc > 0: deriv = (1 - 2*q) / (2 * c_qc) else: deriv = 0`. -/
noncomputable def deriv (q : ℝ) : ℝ :=
  if 0 < c_qc q then (1 - 2 * q) / (2 * c_qc q) else 0

/-- The error-propagation multiplier of `generate_figures.py`:
`dCdq = np.where(q*(1-q) > 0, np.abs(1 - 2*q) / (2*np.sqrt(q*(1-q))), 0)`. -/
noncomputable def dCdq (q : ℝ) : ℝ :=
  if 0 < q * (1 - q) then |1 - 2 * q| / (2 * Real.sqrt (q * (1 - q))) else 0

/-- NumPy `np.mean`: the mean of an empty array is the non-value `NaN`
(modelled by `none`, emitted without raising an exception); on a non-empty
array it is the arithmetic mean. -/
noncomputable def npMean (xs : List ℝ) : Option ℝ :=
  if xs.isEmpty then none else some (xs.sum / xs.length)

/-- `rms = np.sqrt(np.mean(np.array(residuals)**2))` from
`test_semicircle_constraint.py`; `NaN` propagates through `np.sqrt`. -/
noncomputable def rmsResiduals (residuals : List ℝ) : Option ℝ :=
  (npMean (residuals.map (fun r => r ^ 2))).map Real.sqrt

/-- NumPy `np.log` on a float: a genuine logarithm only for positive
arguments; `np.log(0.0)` is `-inf` and `np.log` of a negative float is `NaN`,
both non-values modelled by `none`. -/
noncomputable def npLog (x : ℝ) : Option ℝ :=
  if 0 < x then some (Real.log x) else none

/-- `log_var = np.log(variances)` from the depth-scaling fit of
`generate_figures.py`: the logarithm is applied elementwise to the variance
list exactly as given — no element is excluded and none is clamped first. -/
noncomputable def depthFitLogVar (variances : List ℝ) : List (Option ℝ) :=
  variances.map npLog

/-- `depth_variance = max(0, depth_variance)` from
`test_barren_plateau_geometry.py`, the producer of the variances the fit
consumes: it clamps to `0` inclusively, so a zero variance can reach the fit. -/
def clampVariance (x : ℝ) : ℝ := max 0 x

/-- Threshold record of the spec's validator contract. -/
structure Thresholds where
  rms_max : ℝ
  abs_max : ℝ

/-- Aggregate record of the spec's validator contract; the error aggregates
are `none` (`NaN`) on an empty batch. -/
structure ValidationResult where
  rms_error : Option ℝ
  max_error : Option ℝ
  mean_error : Option ℝ
  pass : Prop

/-- Python `max` over a list of floats (`none` on the empty list). -/
def listMax : List ℝ → Option ℝ
  | [] => none
  | x :: xs => some (xs.foldl max x)

/-- Pointwise residuals `y - reference(x)` of a sample batch. -/
def residualsOf (samples : List (ℝ × ℝ)) (reference : ℝ → ℝ) : List ℝ :=
  samples.map (fun p => p.2 - reference p.1)

/-- Modelled from the spec: no standalone `StatisticalValidator.validate`
function exists under `src/` (the test scripts inline its pieces), so the
contract of spec §4.1 is modelled from the spec's words: residuals
`y - reference(x)`, `rms_error = sqrt(mean(residual²))`,
`max_error = max(|residual|)`, `mean_error = mean(residual)`, and
`pass = (rms_error < rms_max) AND (max_error < abs_max)`, where a comparison
against the empty-batch `NaN` is falsy. -/
noncomputable def validate (samples : List (ℝ × ℝ)) (reference : ℝ → ℝ)
    (t : Thresholds) : ValidationResult :=
  { rms_error := rmsResiduals (residualsOf samples reference)
    max_error := listMax ((residualsOf samples reference).map (fun r => |r|))
    mean_error := npMean (residualsOf samples reference)
    pass := ∃ r m, rmsResiduals (residualsOf samples reference) = some r ∧
      listMax ((residualsOf samples reference).map (fun r => |r|)) = some m ∧
      r < t.rms_max ∧ m < t.abs_max }

/-- The report dictionary assembled by `run_qsharp_test`, restricted to its
`error` and `passed` entries; an absent key is `none`. -/
structure QTestReport where
  error : Option String
  passed : Option Bool

/-- The control flow of `run_qsharp_test` (`azure_quantum_tests.py`): the
`ValueError` for an invalid test number and the `FileNotFoundError` for a
missing Q# file are raised before the `try:` block and propagate to the
caller (`Except.error`); the missing-SDK early return sets only `error`;
inside the `try:` block every exception is caught and turned into a report
carrying the message in `error` with `passed = False`, while a successful body
yields `passed = (correlation > 0.9)`. The body of the `try:` block
(compilation, job submission, statistics) is abstracted as `body`: the
correlation it computes, or the message of the exception it raises. -/
def run_qsharp_test (test_num : ℕ) (file_exists qsharp_available : Bool)
    (body : Except String ℚ) : Except String QTestReport :=
  if test_num ∈ [1, 2, 3] then
    if file_exists then
      if qsharp_available then
        match body with
        | Except.ok correlation =>
            Except.ok { error := none, passed := some (qsharpPassed correlation) }
        | Except.error e => Except.ok { error := some e, passed := some false }
      else Except.ok { error := some "Q# SDK not installed", passed := none }
    else Except.error "FileNotFoundError"
  else Except.error "ValueError"

/-- `true` exactly when the call ends in an exception reaching the caller. -/
def propagatesException : Except String QTestReport → Bool
  | Except.error _ => true
  | Except.ok _ => false

/-- The degree-1 `np.polyfit(xs, ys, 1)` slope in its ordinary least-squares
closed form: centred cross-moment over centred second moment,
`Σᵢ (xᵢ - x̄)(yᵢ - ȳ) / Σᵢ (xᵢ - x̄)²`. -/
noncomputable def olsSlope (data : List (ℝ × ℝ)) : ℝ :=
  ((data.map (fun p => (p.1 - (data.map Prod.fst).sum / data.length) *
      (p.2 - (data.map Prod.snd).sum / data.length))).sum) /
    ((data.map (fun p => (p.1 - (data.map Prod.fst).sum / data.length) ^ 2)).sum)

/-- The depth-scaling fit of `generate_figures.py`:
`coeffs = np.polyfit(depths, np.log(variances), 1)` (for positive variances
`np.log` is the real logarithm), with the decay rate reported as the negated
slope (the figure label prints `abs(coeffs[0])`, and the spec says `-a`). -/
noncomputable def depthDecayRate (data : List (ℝ × ℝ)) : ℝ :=
  - olsSlope (data.map (fun p => (p.1, Real.log p.2)))

/-- The depth/variance table of the depth-fit scenario (spec §8): variances
`[0.25, 0.225, 0.2025, 0.164, 0.133]` at depths `[1, 2, 4, 8, 16]`. -/
def claimDepthData : List (ℝ × ℝ) :=
  [(1, 0.25), (2, 0.225), (4, 0.2025), (8, 0.164), (16, 0.133)]

/-- The clamp inside the square root is redundant: `Real.sqrt` is `0` on
negative arguments, so both spellings of `c_qc` agree. -/
theorem c_qc_clamped_eq (q : ℝ) : c_qc_clamped q = c_qc q := by
  unfold c_qc_clamped c_qc
  rcases le_or_lt 0 (q * (1 - q)) with h | h
  · rw [max_eq_right h]
  · rw [max_eq_left h.le, Real.sqrt_eq_zero_of_nonpos h.le, Real.sqrt_zero]

/-- The curve is symmetric about `q = 1/2`. -/
theorem c_qc_symm (q : ℝ) : c_qc (1 - q) = c_qc q := by
  unfold c_qc
  rw [show (1 - q) * (1 - (1 - q)) = q * (1 - q) by ring]

/-- At `q = 1/2` the curve attains `1/2`. -/
theorem c_qc_half : c_qc (1/2) = 1/2 := by
  unfold c_qc
  rw [show (1/2 : ℝ) * (1 - 1/2) = (1/2) ^ 2 by ring, Real.sqrt_sq (by norm_num)]

/-- On `[0,1]` the curve vanishes exactly at the endpoints. -/
theorem c_qc_eq_zero_iff (q : ℝ) (h0 : 0 ≤ q) (h1 : q ≤ 1) :
    c_qc q = 0 ↔ q = 0 ∨ q = 1 := by
  unfold c_qc
  rw [Real.sqrt_eq_zero']
  constructor
  · intro h
    have hnn : 0 ≤ q * (1 - q) := by nlinarith
    have hz : q * (1 - q) = 0 := le_antisymm h hnn
    rcases mul_eq_zero.mp hz with h | h
    · exact Or.inl h
    · right; linarith
  · rintro (rfl | rfl) <;> norm_num

/-- The curve is never negative. -/
theorem c_qc_nonneg (q : ℝ) : 0 ≤ c_qc q := Real.sqrt_nonneg _

/-- The curve is bounded by `1/2` for every real argument (for `q` outside
`[0,1]` the square root of the negative product is `0`). -/
theorem c_qc_le_half (q : ℝ) : c_qc q ≤ 1/2 := by
  unfold c_qc
  have h : q * (1 - q) ≤ (1/2) ^ 2 := by nlinarith [sq_nonneg (q - 1/2)]
  calc Real.sqrt (q * (1 - q)) ≤ Real.sqrt ((1/2) ^ 2) := Real.sqrt_le_sqrt h
    _ = 1/2 := Real.sqrt_sq (by norm_num)

/-- C1: for every `q` in the open interval `(0,1)`, the point
`(q - 0.5, c_qc q)` lies on the circle of radius `0.5`:
`(q - 0.5)^2 + c_qc q ^ 2 = 0.25` exactly, so the circle-constraint residual
is `0`, in particular within the `1e-9` tolerance. -/
theorem C1_circle_residual_vanishes (q : ℝ) (h0 : 0 < q) (h1 : q < 1) :
    (q - 0.5) ^ 2 + c_qc q ^ 2 = 0.25 ∧ |circleResidual q| ≤ 1e-9 := by
  have hnn : 0 ≤ q * (1 - q) := by nlinarith
  have hsq : c_qc q ^ 2 = q * (1 - q) := Real.sq_sqrt hnn
  have hmain : (q - 0.5) ^ 2 + c_qc q ^ 2 = 0.25 := by rw [hsq]; ring
  refine ⟨hmain, ?_⟩
  have : circleResidual q = 0 := by
    unfold circleResidual; rw [hmain]; ring
  rw [this]
  norm_num

/-- Witness for C1 at the concrete sample `q = 1/2`. -/
theorem C1_witness :
    ((1:ℝ)/2 - 0.5) ^ 2 + c_qc (1/2) ^ 2 = 0.25 ∧ |circleResidual (1/2)| ≤ 1e-9 :=
  C1_circle_residual_vanishes (1/2) (by norm_num) (by norm_num)

/-- C2 counterexample: aggregates with `rms_error = 0 < 0.001` (both RMS
aggregates) and `max_error = 0 < 0.01`, yet `passed26` is `false` because the
mean-radius check `|mean_radius - 0.5| < 0.001` — a condition other than the
two named checks — also enters the verdict. -/
theorem C2_counterexample :
    ((0:ℚ) < 1/1000 ∧ (0:ℚ) < 1/100) ∧ passed26 0 0 0 0 = false := by
  constructor
  · constructor <;> norm_num
  · unfold passed26
    norm_num
    rw [abs_of_nonneg] <;> norm_num

/-- C2 (amended): the verdict of test 26 is the conjunction of exactly four
aggregate checks — both RMS residuals below `0.001`, the max residual below
`0.01`, and the mean radius within `0.001` of `0.5`; the Azure Q# runner's
verdict is instead `correlation > 0.9`. -/
theorem C2_amended_verdict (ru rr mr mrad c : ℚ) :
    (passed26 ru rr mr mrad = true ↔
      (ru < 1/1000 ∧ rr < 1/1000 ∧ mr < 1/100 ∧ |mrad - 1/2| < 1/1000)) ∧
    (qsharpPassed c = true ↔ c > 9/10) := by
  constructor
  · unfold passed26
    simp [and_assoc]
  · unfold qsharpPassed
    simp

/-- C3: the sensitivity sub-routine computes `(1 - 2 q) / (2 c_qc q)` whenever
`c_qc q > 0` and returns exactly `0` whenever `c_qc q = 0`; in particular it is
`0` at `q = 0` and `q = 1`, where also `c_qc 0 = 0` and `c_qc 1 = 0`, so no
division by zero is ever performed (the division branch is guarded by
`c_qc q > 0`); the error-propagation multiplier `dCdq` of
`generate_figures.py` is likewise `0` at the endpoints. -/
theorem C3_deriv_guarded (q : ℝ) :
    (0 < c_qc q → deriv q = (1 - 2 * q) / (2 * c_qc q)) ∧
    (c_qc q = 0 → deriv q = 0) ∧
    c_qc 0 = 0 ∧ c_qc 1 = 0 ∧ deriv 0 = 0 ∧ deriv 1 = 0 ∧
    dCdq 0 = 0 ∧ dCdq 1 = 0 := by
  have h0 : c_qc 0 = 0 := by unfold c_qc; norm_num
  have h1 : c_qc 1 = 0 := by unfold c_qc; norm_num
  refine ⟨fun h => ?_, fun h => ?_, h0, h1, ?_, ?_, ?_, ?_⟩
  · unfold deriv; rw [if_pos h]
  · unfold deriv; rw [if_neg (by rw [h]; exact lt_irrefl 0)]
  · unfold deriv; rw [if_neg (by rw [h0]; exact lt_irrefl 0)]
  · unfold deriv; rw [if_neg (by rw [h1]; exact lt_irrefl 0)]
  · unfold dCdq; rw [if_neg (by norm_num)]
  · unfold dCdq; rw [if_neg (by norm_num)]

/-- Witness for C3 at `q = 1/4` (where `c_qc > 0`) and at the singular
endpoints `q = 0`, `q = 1`. -/
theorem C3_witness :
    deriv (1/4) = (1 - 2 * (1/4)) / (2 * c_qc (1/4)) ∧
    deriv 0 = 0 ∧ deriv 1 = 0 ∧ c_qc 0 = 0 ∧ c_qc 1 = 0 ∧
    dCdq 0 = 0 ∧ dCdq 1 = 0 := by
  have hpos : 0 < c_qc (1/4) := by
    unfold c_qc
    rw [Real.sqrt_pos]
    norm_num
  exact ⟨(C3_deriv_guarded (1/4)).1 hpos, (C3_deriv_guarded 0).2.2.2.2.1,
    (C3_deriv_guarded 1).2.2.2.2.2.1, (C3_deriv_guarded 0).2.2.1,
    (C3_deriv_guarded 1).2.2.2.1, (C3_deriv_guarded 0).2.2.2.2.2.2.1,
    (C3_deriv_guarded 1).2.2.2.2.2.2.2⟩

/-- Two-sided rational bounds for the decay rate the fit produces on the
scenario table: it lies in `(0.0404, 0.0408)` (the exact value is
`≈ 0.040576`). Each logarithm is decomposed over `log 2`, `log 3`, `log 5`
and a near-`1` factor, the latter bounded by `1 - y⁻¹ ≤ log y ≤ y - 1` and
`log 3`, `log 5` reduced to `log 2` through `3¹² / 2¹⁹` and `5³ / 2⁷`. -/
theorem depthDecayRate_claim_bounds :
    0.0404 < depthDecayRate claimDepthData ∧ depthDecayRate claimDepthData < 0.0408 := by
  have hform : depthDecayRate claimDepthData =
      (26/744) * Real.log 0.25 + (21/744) * Real.log 0.225 + (11/744) * Real.log 0.2025
      - (9/744) * Real.log 0.164 - (49/744) * Real.log 0.133 := by
    unfold depthDecayRate claimDepthData olsSlope
    simp only [List.map_cons, List.map_nil, List.sum_cons, List.sum_nil,
      List.length_cons, List.length_nil]
    norm_num
    ring_nf
  have hl1 : Real.log 0.25 = -2 * Real.log 2 := by
    rw [show (0.25:ℝ) = ((2:ℝ) ^ (2:ℕ))⁻¹ by norm_num, Real.log_inv, Real.log_pow]
    push_cast; ring
  have hl2 : Real.log 0.225 = 2 * Real.log 3 - 3 * Real.log 2 - Real.log 5 := by
    rw [show (0.225:ℝ) = (3:ℝ) ^ (2:ℕ) / ((2:ℝ) ^ (3:ℕ) * 5) by norm_num,
      Real.log_div (by norm_num) (by norm_num),
      Real.log_mul (by norm_num) (by norm_num), Real.log_pow, Real.log_pow]
    push_cast; ring
  have hl3 : Real.log 0.2025 = 4 * Real.log 3 - 4 * Real.log 2 - 2 * Real.log 5 := by
    rw [show (0.2025:ℝ) = (3:ℝ) ^ (4:ℕ) / ((2:ℝ) ^ (4:ℕ) * 5 ^ (2:ℕ)) by norm_num,
      Real.log_div (by norm_num) (by norm_num),
      Real.log_mul (by norm_num) (by norm_num), Real.log_pow, Real.log_pow, Real.log_pow]
    push_cast; ring
  have hl4 : Real.log 0.164 = Real.log (41/40) + 2 * Real.log 2 - 2 * Real.log 5 := by
    have h : Real.log ((2:ℝ) ^ (2:ℕ) / (5:ℝ) ^ (2:ℕ)) = 2 * Real.log 2 - 2 * Real.log 5 := by
      rw [Real.log_div (by norm_num) (by norm_num), Real.log_pow, Real.log_pow]
      push_cast; ring
    rw [show (0.164:ℝ) = (41/40) * ((2:ℝ) ^ (2:ℕ) / (5:ℝ) ^ (2:ℕ)) by norm_num,
      Real.log_mul (by norm_num) (by norm_num), h]
    ring
  have hl5 : Real.log 0.133 = Real.log (133/128) + 4 * Real.log 2 - 3 * Real.log 5 := by
    have h : Real.log ((2:ℝ) ^ (4:ℕ) / (5:ℝ) ^ (3:ℕ)) = 4 * Real.log 2 - 3 * Real.log 5 := by
      rw [Real.log_div (by norm_num) (by norm_num), Real.log_pow, Real.log_pow]
      push_cast; ring
    rw [show (0.133:ℝ) = (133/128) * ((2:ℝ) ^ (4:ℕ) / (5:ℝ) ^ (3:ℕ)) by norm_num,
      Real.log_mul (by norm_num) (by norm_num), h]
    ring
  have hE3 : Real.log (531441/524288) = 12 * Real.log 3 - 19 * Real.log 2 := by
    rw [show (531441/524288:ℝ) = (3:ℝ) ^ (12:ℕ) / (2:ℝ) ^ (19:ℕ) by norm_num,
      Real.log_div (by norm_num) (by norm_num), Real.log_pow, Real.log_pow]
    push_cast; ring
  have hE5 : Real.log (125/128) = 3 * Real.log 5 - 7 * Real.log 2 := by
    rw [show (125/128:ℝ) = (5:ℝ) ^ (3:ℕ) / (2:ℝ) ^ (7:ℕ) by norm_num,
      Real.log_div (by norm_num) (by norm_num), Real.log_pow, Real.log_pow]
    push_cast; ring
  have hb3l : 1 - ((531441:ℝ)/524288)⁻¹ ≤ Real.log (531441/524288) :=
    Real.one_sub_inv_le_log_of_pos (by norm_num)
  have hb3u : Real.log ((531441:ℝ)/524288) ≤ 531441/524288 - 1 :=
    Real.log_le_sub_one_of_pos (by norm_num)
  have hb5l : 1 - ((125:ℝ)/128)⁻¹ ≤ Real.log (125/128) :=
    Real.one_sub_inv_le_log_of_pos (by norm_num)
  have hb5u : Real.log ((125:ℝ)/128) ≤ 125/128 - 1 :=
    Real.log_le_sub_one_of_pos (by norm_num)
  have hbPl : 1 - ((41:ℝ)/40)⁻¹ ≤ Real.log (41/40) :=
    Real.one_sub_inv_le_log_of_pos (by norm_num)
  have hbPu : Real.log ((41:ℝ)/40) ≤ 41/40 - 1 :=
    Real.log_le_sub_one_of_pos (by norm_num)
  have hbQl : 1 - ((133:ℝ)/128)⁻¹ ≤ Real.log (133/128) :=
    Real.one_sub_inv_le_log_of_pos (by norm_num)
  have hbQu : Real.log ((133:ℝ)/128) ≤ 133/128 - 1 :=
    Real.log_le_sub_one_of_pos (by norm_num)
  have h2l := Real.log_two_gt_d9
  have h2u := Real.log_two_lt_d9
  rw [hform, hl1, hl2, hl3, hl4, hl5]
  constructor <;>
    linarith [hE3, hE5, hb3l, hb3u, hb5l, hb5u, hbPl, hbPu, hbQl, hbQu, h2l, h2u]

/-- C4 counterexample: on the scenario table the fitted decay rate differs
from the claimed `-ln(0.9) ≈ 0.105` by more than `0.05` — far outside any
noise-scale fitting tolerance (the OLS slope's standard error at noise level
`σ = 0.01` is below `0.001`); the rate actually fitted is `≈ 0.0406`. -/
theorem C4_counterexample : |depthDecayRate claimDepthData - 0.105| > 1/20 := by
  obtain ⟨h1, h2⟩ := depthDecayRate_claim_bounds
  rw [abs_of_neg (by linarith)]
  linarith

/-- C4 (amended): on the depth/variance table `[(1, 0.25), (2, 0.225),
(4, 0.2025), (8, 0.164), (16, 0.133)]` the depth-scaling sub-routine
(OLS on log-variance, decay rate = minus the slope) fits a decay rate of
approximately `0.0406` — inside `(0.0404, 0.0408)` — not `≈ 0.105`: the
table's variances do not follow the rate-`ln(0.9)` decay `0.25·0.9^depth`. -/
theorem C4_amended_fitted_rate :
    0.0404 < depthDecayRate claimDepthData ∧ depthDecayRate claimDepthData < 0.0408 :=
  depthDecayRate_claim_bounds

/-- C5 exhibit: a variance that the producer's own clamp `max(0, ·)` maps to
`0` flows into the fit, and the fit applies the logarithm to it, producing the
non-value (`-inf`); nothing excludes or clamps it away first. -/
theorem C5_log_applied_to_nonpositive :
    depthFitLogVar [clampVariance (-1/100)] = [none] := by
  have h : clampVariance (-1/100) = 0 := by
    unfold clampVariance
    rw [max_eq_left (by norm_num)]
  unfold depthFitLogVar
  rw [List.map_cons, List.map_nil, h]
  unfold npLog
  rw [if_neg (lt_irrefl 0)]

/-- C6: on `(0,1)` the analytic sensitivity is antisymmetric about `q = 1/2`,
`deriv q = - deriv (1 - q)`, and at `q = 1/2` it is exactly `0`. -/
theorem C6_deriv_antisymmetric (q : ℝ) (h0 : 0 < q) (h1 : q < 1) :
    deriv q = - deriv (1 - q) ∧ deriv (1/2) = 0 := by
  have hpos : 0 < c_qc q := Real.sqrt_pos.mpr (by nlinarith)
  have hpos' : 0 < c_qc (1 - q) := by rw [c_qc_symm]; exact hpos
  constructor
  · unfold deriv
    rw [if_pos hpos, if_pos hpos', c_qc_symm]
    field_simp
    ring
  · unfold deriv
    rw [if_pos (by rw [c_qc_half]; norm_num), c_qc_half]
    norm_num

/-- Witness for C6 at the concrete point `q = 1/4`. -/
theorem C6_witness : deriv (1/4) = - deriv (1 - 1/4) ∧ deriv (1/2) = 0 :=
  C6_deriv_antisymmetric (1/4) (by norm_num) (by norm_num)

/-- C7: applied to an empty sample sequence, the RMS aggregate evaluates to
`NaN` (modelled `none`) rather than raising — the embedding is a total
function — while any non-empty sequence yields an actual value. -/
theorem C7_empty_rms_nan :
    rmsResiduals [] = none ∧
      ∀ (r : ℝ) (rs : List ℝ), (rmsResiduals (r :: rs)).isSome = true := by
  constructor
  · simp [rmsResiduals, npMean]
  · intro r rs
    simp [rmsResiduals, npMean]

/-- C8: on the single sample `(0.5, 0.5)` with reference `c_qc` and thresholds
`rms_max = 0.001`, `abs_max = 0.01`, the validator reports `rms_error = 0.0`
and the verdict is pass. -/
theorem C8_single_sample_passes :
    (validate [(1/2, 1/2)] c_qc ⟨1/1000, 1/100⟩).rms_error = some 0 ∧
    (validate [(1/2, 1/2)] c_qc ⟨1/1000, 1/100⟩).pass := by
  have hres : residualsOf [(1/2, 1/2)] c_qc = [0] := by
    unfold residualsOf
    rw [List.map_cons, List.map_nil, c_qc_half]
    norm_num
  have hrms : rmsResiduals [(0:ℝ)] = some 0 := by
    unfold rmsResiduals npMean
    simp
  constructor
  · show rmsResiduals (residualsOf [(1/2, 1/2)] c_qc) = some 0
    rw [hres, hrms]
  · show ∃ r m, _ ∧ _ ∧ _ ∧ _
    refine ⟨0, 0, by rw [hres, hrms], ?_, by norm_num, by norm_num⟩
    rw [hres]
    unfold listMax
    simp

/-- C9: for `q ∈ [0,1]` the correlation `c_qc q` lies in `[0, 1/2]` and equals
`1/2` exactly when `q = 1/2`; consequently the value derived from any clipped
probability `np.clip(x, 0.01, 0.99)` is bounded by `1/2`. -/
theorem C9_cqc_bounded (q x : ℝ) (h0 : 0 ≤ q) (h1 : q ≤ 1) :
    0 ≤ c_qc q ∧ c_qc q ≤ 1/2 ∧ (c_qc q = 1/2 ↔ q = 1/2) ∧
      c_qc (npClip x 0.01 0.99) ≤ 1/2 := by
  refine ⟨c_qc_nonneg q, c_qc_le_half q, ⟨fun h => ?_, fun h => by rw [h]; exact c_qc_half⟩,
    c_qc_le_half _⟩
  have hnn : 0 ≤ q * (1 - q) := by nlinarith
  have hsq := Real.sq_sqrt hnn
  unfold c_qc at h
  rw [h] at hsq
  have hz : (q - 1/2) ^ 2 = 0 := by nlinarith
  have := sq_eq_zero_iff.mp hz
  linarith

/-- Witness for C9 at `q = 1/2` and the unclipped value `x = 2`. -/
theorem C9_witness :
    0 ≤ c_qc (1/2) ∧ c_qc (1/2) ≤ 1/2 ∧ (c_qc (1/2) = 1/2 ↔ (1/2 : ℝ) = 1/2) ∧
      c_qc (npClip 2 0.01 0.99) ≤ 1/2 :=
  C9_cqc_bounded (1/2) 2 (by norm_num) (by norm_num)

/-- C10 counterexample: at the concrete input `test_num = 4` (file present,
SDK present, body succeeding), `run_qsharp_test` propagates an exception to
its caller instead of returning a report. -/
theorem C10_counterexample :
    run_qsharp_test 4 true true (Except.ok 1) = Except.error "ValueError" ∧
      propagatesException (run_qsharp_test 4 true true (Except.ok 1)) = true := by
  constructor <;> rfl

/-- C10 (amended): for a valid test number (1, 2 or 3) and an existing Q#
file, `run_qsharp_test` never propagates an exception, and an exception
raised inside the `try:` block is returned as a report with its message in
`error` and `passed = False`; the invalid-test-number and missing-file
checks sit before the `try:` block and do propagate. -/
theorem C10_amended (t : ℕ) (ht : t ∈ [1, 2, 3]) (qa : Bool)
    (body : Except String ℚ) (e : String) :
    propagatesException (run_qsharp_test t true qa body) = false ∧
    run_qsharp_test t true true (Except.error e) =
      Except.ok { error := some e, passed := some false } := by
  constructor
  · unfold run_qsharp_test
    rw [if_pos ht]
    cases qa <;> cases body <;> rfl
  · unfold run_qsharp_test
    rw [if_pos ht]
    rfl

/-- Witness for C10 (amended) at `test_num = 1`. -/
theorem C10_witness :
    propagatesException (run_qsharp_test 1 true true (Except.ok 0)) = false ∧
    run_qsharp_test 1 true true (Except.error "job failed") =
      Except.ok { error := some "job failed", passed := some false } :=
  C10_amended 1 (by simp) true (Except.ok 0) "job failed"

end QC
